import Mathlib

/-!
Shallow embedding of `src/main.py`: a FastAPI CRUD application over MongoDB
with four collections (instructors, students, courses, enrollments).

Modelling conventions:
  * A bson `ObjectId` built from a string succeeds exactly on 24-character
    hexadecimal strings; the internal value is the canonical lower-case form.
  * A Mongo collection is a finite sequence of documents, each a pair of the
    storage-assigned `_id` and the stored fields.  `insert_one` appends;
    `find_one`, `update_one` and `delete_one` act on the first match
    (Mongo enforces `_id` uniqueness, which we carry as a `Nodup` hypothesis
    where a proof needs it).
  * Each route handler becomes a function threading the database state
    explicitly.  `HTTPException(code, msg)` raised by a handler becomes
    `ApiErr.http code msg`; an exception escaping a handler uncaught (which
    FastAPI surfaces as a 500 server error) becomes `ApiErr.exn`.
  * `insert_one`'s driver-generated fresh id is passed as an explicit
    `newId` argument to the create handlers.
  * Times (`datetime`) are modelled as natural numbers.
-/

namespace CourseApi

/-- A hexadecimal digit, upper or lower case. -/
def isHexChar (c : Char) : Bool :=
  c.isDigit || ('a' ≤ c && c ≤ 'f') || ('A' ≤ c && c ≤ 'F')

/-- The strings accepted by the bson `ObjectId` constructor: exactly the
24-character hexadecimal strings. -/
def isValidObjectIdString (s : String) : Bool :=
  s.length == 24 && s.data.all isHexChar

/-- Lower-case one hexadecimal character. -/
def hexCharLower (c : Char) : Char :=
  if 'A' ≤ c && c ≤ 'F' then Char.ofNat (c.toNat + 32) else c

/-- Lower-case a hexadecimal string (bson stores the 12 bytes, so the
canonical external form is lower-case hex). -/
def hexLower (s : String) : String :=
  String.mk (s.data.map hexCharLower)

/-- Internal Mongo `ObjectId`, kept as its canonical lower-case hex string. -/
structure ObjectId where
  hex : String
deriving DecidableEq

/-- Exceptions escaping a handler uncaught; FastAPI turns them into a
500 server error response. `invalidId` is bson's `InvalidId`. -/
inductive Exn
  | invalidId
  | noneTypeError
deriving DecidableEq

/-- Outcome classification of a handler: a raised `HTTPException` with its
status code and detail message, or an uncaught exception. -/
inductive ApiErr
  | http (code : Nat) (msg : String)
  | exn (e : Exn)
deriving DecidableEq

/-- Constructor `ObjectId(s)` for a string `s`: succeeds exactly on 24-hex strings,
raising bson `InvalidId` otherwise. -/
def ObjectId.ofString (s : String) : Except Exn ObjectId :=
  if isValidObjectIdString s then .ok ⟨hexLower s⟩ else .error .invalidId

/-- Conversion `str(oid)`: the external representation put into response documents. -/
def ObjectId.str (o : ObjectId) : String := o.hex

/-- A well-formed `ObjectId` as the driver generates them: a lower-case
24-hex string. -/
def ObjectId.wf (o : ObjectId) : Prop :=
  isValidObjectIdString o.hex = true ∧ hexLower o.hex = o.hex

instance (o : ObjectId) : Decidable o.wf := by
  unfold ObjectId.wf; infer_instance

/-- One Mongo collection: documents keyed by their `_id`. -/
abbrev Col (α : Type) := List (ObjectId × α)

/-- Query `find_one` on `_id`: the first document with the given id. -/
def find_one {α : Type} (col : Col α) (oid : ObjectId) : Option (ObjectId × α) :=
  col.find? (fun d => d.1 == oid)

/-- The part of pymongo's `UpdateResult` the handlers read. -/
structure UpdateResult where
  matched_count : Nat
deriving DecidableEq

/-- The part of pymongo's `DeleteResult` the handlers read. -/
structure DeleteResult where
  deleted_count : Nat
deriving DecidableEq

/-- Operation `insert_one`: append the new document under the freshly generated id. -/
def insert_one {α : Type} (col : Col α) (oid : ObjectId) (doc : α) : Col α :=
  col ++ [(oid, doc)]

/-- Replace the stored fields of the first document with the given id
(the effect of `$set` with the full field dictionary). -/
def setFirst {α : Type} (col : Col α) (oid : ObjectId) (doc : α) : Col α :=
  match col with
  | [] => []
  | d :: rest => if d.1 == oid then (d.1, doc) :: rest else d :: setFirst rest oid doc

/-- Operation `update_one` with a full `$set` dictionary: sets all fields of the first
matching document; reports how many documents matched. -/
def update_one {α : Type} (col : Col α) (oid : ObjectId) (doc : α) :
    UpdateResult × Col α :=
  if col.any (fun d => d.1 == oid) then (⟨1⟩, setFirst col oid doc)
  else (⟨0⟩, col)

/-- Operation `delete_one` on `_id`: removes the first matching document;
reports how many documents were deleted. -/
def delete_one {α : Type} (col : Col α) (oid : ObjectId) : DeleteResult × Col α :=
  if col.any (fun d => d.1 == oid) then (⟨1⟩, col.eraseP (fun d => d.1 == oid))
  else (⟨0⟩, col)

/-- Input schema `InstructorCreate` (email validation happens in the HTTP
layer before the handler runs; the handlers treat it as text). -/
structure InstructorCreate where
  name : String
  email : String
  expertise : Option String := none
deriving DecidableEq

/-- Response schema `Instructor`: the input fields plus the id string. -/
structure Instructor where
  id : String
  name : String
  email : String
  expertise : Option String
deriving DecidableEq

/-- Input schema `StudentCreate`. -/
structure StudentCreate where
  name : String
  email : String
deriving DecidableEq

/-- Response schema `Student`. -/
structure Student where
  id : String
  name : String
  email : String
deriving DecidableEq

/-- Input schema `CourseCreate`. -/
structure CourseCreate where
  title : String
  description : Option String := none
  instructor_id : String
deriving DecidableEq

/-- Response schema `Course`. -/
structure Course where
  id : String
  title : String
  description : Option String
  instructor_id : String
deriving DecidableEq

/-- Input schema `EnrollmentCreate`.  The stored `timestamp` field comes
from the request body when present, and otherwise from the class-level
default, which Python evaluates ONCE, when the class statement runs at
module import (`timestamp: datetime = datetime.utcnow()`). -/
structure EnrollmentCreate where
  student_id : String
  course_id : String
  timestamp : Nat
deriving DecidableEq

/-- Build the `EnrollmentCreate` pydantic parses from a request body:
`classDefTime` is the value `datetime.utcnow()` had when the class was
defined at import time; a body omitting `timestamp` receives it. -/
def EnrollmentCreate.ofRequest (classDefTime : Nat) (sid cid : String)
    (ts : Option Nat) : EnrollmentCreate :=
  { student_id := sid, course_id := cid, timestamp := ts.getD classDefTime }

/-- Response schema `Enrollment`. -/
structure Enrollment where
  id : String
  student_id : String
  course_id : String
  timestamp : Nat
deriving DecidableEq

/-- The database: the four collections of `course_db`. -/
structure DB where
  instructors_col : Col InstructorCreate
  students_col : Col StudentCreate
  courses_col : Col CourseCreate
  enrollments_col : Col EnrollmentCreate
deriving DecidableEq

/-- Build an `Instructor` response from a stored document
(`doc["_id"] = str(doc["_id"])` followed by the response model). -/
def instructorRecord (d : ObjectId × InstructorCreate) : Instructor :=
  { id := d.1.str, name := d.2.name, email := d.2.email, expertise := d.2.expertise }

/-- Build a `Student` response from a stored document. -/
def studentRecord (d : ObjectId × StudentCreate) : Student :=
  { id := d.1.str, name := d.2.name, email := d.2.email }

/-- Build a `Course` response from a stored document. -/
def courseRecord (d : ObjectId × CourseCreate) : Course :=
  { id := d.1.str, title := d.2.title, description := d.2.description,
    instructor_id := d.2.instructor_id }

/-- Build an `Enrollment` response from a stored document. -/
def enrollmentRecord (d : ObjectId × EnrollmentCreate) : Enrollment :=
  { id := d.1.str, student_id := d.2.student_id, course_id := d.2.course_id,
    timestamp := d.2.timestamp }

/-- Handler for `POST /instructors`: insert the validated input, answer 201 with the
input fields plus `id = str(inserted_id)`.  `newId` is the fresh id the
driver generates inside `insert_one`. -/
def create_instructor (db : DB) (newId : ObjectId) (instructor : InstructorCreate) :
    Except ApiErr Instructor × DB :=
  (.ok { id := newId.str, name := instructor.name, email := instructor.email,
         expertise := instructor.expertise },
   { db with instructors_col := insert_one db.instructors_col newId instructor })

/-- Handler for `GET /instructors/id`: decode the id (400 on failure), look the
document up (404 when absent), answer with the record. -/
def get_instructor (db : DB) (instructor_id : String) :
    Except ApiErr Instructor × DB :=
  match ObjectId.ofString instructor_id with
  | .error _ => (.error (.http 400 "Invalid id format"), db)
  | .ok obj_id =>
    match find_one db.instructors_col obj_id with
    | none => (.error (.http 404 "Instructor not found"), db)
    | some d => (.ok (instructorRecord d), db)

/-- Handler for `PUT /instructors/id`: decode the id (400), `$set` the full input
dictionary on the matching document, 404 when nothing matched, then read
the document back and answer with it. -/
def update_instructor (db : DB) (instructor_id : String) (data : InstructorCreate) :
    Except ApiErr Instructor × DB :=
  match ObjectId.ofString instructor_id with
  | .error _ => (.error (.http 400 "Invalid id format"), db)
  | .ok obj_id =>
    let r := update_one db.instructors_col obj_id data
    let db1 : DB := { db with instructors_col := r.2 }
    if r.1.matched_count == 0 then (.error (.http 404 "Instructor not found"), db1)
    else
      match find_one db1.instructors_col obj_id with
      | none => (.error (.exn .noneTypeError), db1)
      | some d => (.ok (instructorRecord d), db1)

/-- Handler for `DELETE /instructors/id`: decode the id (400), delete the matching
document, 404 when nothing was deleted, else 204 with empty body. -/
def delete_instructor (db : DB) (instructor_id : String) :
    Except ApiErr Unit × DB :=
  match ObjectId.ofString instructor_id with
  | .error _ => (.error (.http 400 "Invalid id format"), db)
  | .ok obj_id =>
    let r := delete_one db.instructors_col obj_id
    let db1 : DB := { db with instructors_col := r.2 }
    if r.1.deleted_count == 0 then (.error (.http 404 "Instructor not found"), db1)
    else (.ok (), db1)

/-- Handler for `POST /students`. -/
def create_student (db : DB) (newId : ObjectId) (student : StudentCreate) :
    Except ApiErr Student × DB :=
  (.ok { id := newId.str, name := student.name, email := student.email },
   { db with students_col := insert_one db.students_col newId student })

/-- Handler for `GET /students/id`. -/
def get_student (db : DB) (student_id : String) :
    Except ApiErr Student × DB :=
  match ObjectId.ofString student_id with
  | .error _ => (.error (.http 400 "Invalid id format"), db)
  | .ok obj_id =>
    match find_one db.students_col obj_id with
    | none => (.error (.http 404 "Student not found"), db)
    | some d => (.ok (studentRecord d), db)

/-- Handler for `PUT /students/id`: same shape as the instructor update. -/
def update_student (db : DB) (student_id : String) (data : StudentCreate) :
    Except ApiErr Student × DB :=
  match ObjectId.ofString student_id with
  | .error _ => (.error (.http 400 "Invalid id format"), db)
  | .ok obj_id =>
    let r := update_one db.students_col obj_id data
    let db1 : DB := { db with students_col := r.2 }
    if r.1.matched_count == 0 then (.error (.http 404 "Student not found"), db1)
    else
      match find_one db1.students_col obj_id with
      | none => (.error (.exn .noneTypeError), db1)
      | some d => (.ok (studentRecord d), db1)

/-- Handler for `DELETE /students/id`. -/
def delete_student (db : DB) (student_id : String) :
    Except ApiErr Unit × DB :=
  match ObjectId.ofString student_id with
  | .error _ => (.error (.http 400 "Invalid id format"), db)
  | .ok obj_id =>
    let r := delete_one db.students_col obj_id
    let db1 : DB := { db with students_col := r.2 }
    if r.1.deleted_count == 0 then (.error (.http 404 "Student not found"), db1)
    else (.ok (), db1)

/-- Handler for `POST /courses`. -/
def create_course (db : DB) (newId : ObjectId) (course : CourseCreate) :
    Except ApiErr Course × DB :=
  (.ok { id := newId.str, title := course.title, description := course.description,
         instructor_id := course.instructor_id },
   { db with courses_col := insert_one db.courses_col newId course })

/-- Handler for `GET /courses/id`. -/
def get_course (db : DB) (course_id : String) :
    Except ApiErr Course × DB :=
  match ObjectId.ofString course_id with
  | .error _ => (.error (.http 400 "Invalid id format"), db)
  | .ok obj_id =>
    match find_one db.courses_col obj_id with
    | none => (.error (.http 404 "Course not found"), db)
    | some d => (.ok (courseRecord d), db)

/-- Handler for `PUT /courses/id`: same shape as the instructor update. -/
def update_course (db : DB) (course_id : String) (data : CourseCreate) :
    Except ApiErr Course × DB :=
  match ObjectId.ofString course_id with
  | .error _ => (.error (.http 400 "Invalid id format"), db)
  | .ok obj_id =>
    let r := update_one db.courses_col obj_id data
    let db1 : DB := { db with courses_col := r.2 }
    if r.1.matched_count == 0 then (.error (.http 404 "Course not found"), db1)
    else
      match find_one db1.courses_col obj_id with
      | none => (.error (.exn .noneTypeError), db1)
      | some d => (.ok (courseRecord d), db1)

/-- Handler for `DELETE /courses/id`. -/
def delete_course (db : DB) (course_id : String) :
    Except ApiErr Unit × DB :=
  match ObjectId.ofString course_id with
  | .error _ => (.error (.http 400 "Invalid id format"), db)
  | .ok obj_id =>
    let r := delete_one db.courses_col obj_id
    let db1 : DB := { db with courses_col := r.2 }
    if r.1.deleted_count == 0 then (.error (.http 404 "Course not found"), db1)
    else (.ok (), db1)

/-- Handler for `GET /courses/instructor/id`: raw string comparison on the stored
`instructor_id` field, no id decoding, no failure path. -/
def get_courses_by_instructor (db : DB) (instructor_id : String) : List Course :=
  (db.courses_col.filter (fun d => d.2.instructor_id == instructor_id)).map courseRecord

/-- Handler for `POST /enrollments`: the handler persists whatever `timestamp` the
parsed `EnrollmentCreate` carries (see `EnrollmentCreate.ofRequest`). -/
def enroll_student (db : DB) (newId : ObjectId) (enrollment : EnrollmentCreate) :
    Except ApiErr Enrollment × DB :=
  (.ok { id := newId.str, student_id := enrollment.student_id,
         course_id := enrollment.course_id, timestamp := enrollment.timestamp },
   { db with enrollments_col := insert_one db.enrollments_col newId enrollment })

/-- Handler for `DELETE /enrollments/id`. -/
def delete_enrollment (db : DB) (enrollment_id : String) :
    Except ApiErr Unit × DB :=
  match ObjectId.ofString enrollment_id with
  | .error _ => (.error (.http 400 "Invalid id format"), db)
  | .ok obj_id =>
    let r := delete_one db.enrollments_col obj_id
    let db1 : DB := { db with enrollments_col := r.2 }
    if r.1.deleted_count == 0 then (.error (.http 404 "Enrollment not found"), db1)
    else (.ok (), db1)

/-- The list comprehension `[ObjectId(c) for c in ids]`: left to right,
the first malformed string raises and aborts the whole comprehension. -/
def mapObjectIds : List String → Except Exn (List ObjectId)
  | [] => .ok []
  | s :: rest =>
    match ObjectId.ofString s with
    | .error e => .error e
    | .ok o =>
      match mapObjectIds rest with
      | .error e => .error e
      | .ok os => .ok (o :: os)

/-- Handler for `GET /enrollments/student/id/courses`: collect the course references
of the matching enrollments, convert each with `ObjectId` (NOT wrapped in
any try/except: a malformed reference escapes the handler uncaught), then
return the courses whose `_id` is in that set. -/
def get_courses_of_student (db : DB) (student_id : String) :
    Except ApiErr (List Course) :=
  let enrolls := db.enrollments_col.filter (fun e => e.2.student_id == student_id)
  let course_ids := enrolls.map (fun e => e.2.course_id)
  match mapObjectIds course_ids with
  | .error e => .error (.exn e)
  | .ok oids =>
    .ok ((db.courses_col.filter (fun d => oids.contains d.1)).map courseRecord)

/-- Handler for `GET /enrollments/course/id/students`: symmetric to
`get_courses_of_student`, over student references. -/
def get_students_of_course (db : DB) (course_id : String) :
    Except ApiErr (List Student) :=
  let enrolls := db.enrollments_col.filter (fun e => e.2.course_id == course_id)
  let student_ids := enrolls.map (fun e => e.2.student_id)
  match mapObjectIds student_ids with
  | .error e => .error (.exn e)
  | .ok oids =>
    .ok ((db.students_col.filter (fun d => oids.contains d.1)).map studentRecord)

/-- A handler outcome that the claim "mapped to a 400 client error"
describes: a raised `HTTPException` with status 400. -/
def isClientError400 {α : Type} : Except ApiErr α → Bool
  | .error (.http 400 _) => true
  | _ => false

/-! ### Helper lemmas about the storage model -/

theorem ofString_str {o : ObjectId} (h : o.wf) : ObjectId.ofString o.str = .ok o := by
  obtain ⟨h1, h2⟩ := h
  simp [ObjectId.ofString, ObjectId.str, h1, h2]

theorem find_one_insert_of_fresh {α : Type} (col : Col α) (oid : ObjectId) (d : α)
    (h : find_one col oid = none) : find_one (insert_one col oid d) oid = some (oid, d) := by
  induction col with
  | nil => simp [find_one, insert_one, List.find?]
  | cons x rest ih =>
    by_cases hx : (x.1 == oid) = true
    · simp [find_one, List.find?_cons, hx] at h
    · simp only [find_one, List.find?_cons, hx, insert_one, List.cons_append,
        cond_false] at h ⊢
      simp only [Bool.false_eq_true, if_false] at *
      exact ih h

theorem any_eq_false_of_find?_none {α : Type} {p : α → Bool} {l : List α}
    (h : l.find? p = none) : l.any p = false := by
  simp only [List.find?_eq_none] at h
  simp only [Bool.eq_false_iff, Ne, List.any_eq_true]
  rintro ⟨x, hx, hp⟩
  exact h x hx hp

theorem any_eq_true_of_find?_some {α : Type} {p : α → Bool} {l : List α} {x : α}
    (h : l.find? p = some x) : l.any p = true := by
  have hp := List.find?_some h
  have hmem := List.mem_of_find?_eq_some h
  simp only [List.any_eq_true]
  exact ⟨x, hmem, hp⟩

theorem find_one_setFirst {α : Type} (col : Col α) (oid : ObjectId) (v : α)
    (h : col.any (fun d => d.1 == oid) = true) :
    find_one (setFirst col oid v) oid = some (oid, v) := by
  induction col with
  | nil => simp at h
  | cons x rest ih =>
    by_cases hx : (x.1 == oid) = true
    · have hxo : x.1 = oid := by simpa using hx
      simp [setFirst, hx, find_one, List.find?_cons, hxo]
    · simp only [List.any_cons, hx, Bool.false_or] at h
      simp only [setFirst, hx, Bool.false_eq_true, if_false, find_one,
        List.find?_cons, cond_false]
      exact ih h

theorem any_eraseP_eq_false {α : Type} (col : Col α) (oid : ObjectId)
    (h : (col.map Prod.fst).Nodup) :
    (col.eraseP (fun d => d.1 == oid)).any (fun d => d.1 == oid) = false := by
  induction col with
  | nil => simp
  | cons x rest ih =>
    simp only [List.map_cons, List.nodup_cons] at h
    obtain ⟨hx, hrest⟩ := h
    by_cases hm : (x.1 == oid) = true
    · have hxo : x.1 = oid := by simpa using hm
      simp only [List.eraseP_cons, hm, cond_true]
      simp only [Bool.eq_false_iff, Ne, List.any_eq_true]
      rintro ⟨y, hy, hpy⟩
      have hyo : y.1 = oid := by simpa using hpy
      exact hx (by rw [hxo, ← hyo]; exact List.mem_map_of_mem Prod.fst hy)
    · have hm' : (x.1 == oid) = false := by simpa using hm
      simp only [List.eraseP_cons, hm', cond_false, List.any_cons, Bool.false_or]
      exact ih hrest

theorem mapObjectIds_error_of_invalid {l : List String}
    (h : ∃ s ∈ l, isValidObjectIdString s = false) :
    mapObjectIds l = .error .invalidId := by
  induction l with
  | nil => simp at h
  | cons s rest ih =>
    obtain ⟨t, ht, hv⟩ := h
    by_cases hs : isValidObjectIdString s = true
    · have htr : t ∈ rest := by
        rcases List.mem_cons.mp ht with h1 | h1
        · rw [h1] at hv; rw [hs] at hv; cases hv
        · exact h1
      have hrec := ih ⟨t, htr, hv⟩
      simp [mapObjectIds, ObjectId.ofString, hs, hrec]
    · have hs' : isValidObjectIdString s = false := by simpa using hs
      simp [mapObjectIds, ObjectId.ofString, hs']

theorem mapObjectIds_ok_of_valid {l : List String}
    (h : ∀ s ∈ l, isValidObjectIdString s = true) :
    mapObjectIds l = .ok (l.map (fun s => ⟨hexLower s⟩)) := by
  induction l with
  | nil => simp [mapObjectIds]
  | cons s rest ih =>
    have hs := h s (List.mem_cons_self s rest)
    have hr := ih (fun t ht => h t (List.mem_cons_of_mem s ht))
    simp [mapObjectIds, ObjectId.ofString, hs, hr]

theorem courseRecord_injective : Function.Injective courseRecord := by
  rintro ⟨⟨h1⟩, t1, d1, i1⟩ ⟨⟨h2⟩, t2, d2, i2⟩ h
  simp only [courseRecord, ObjectId.str, Course.mk.injEq] at h
  obtain ⟨e1, e2, e3, e4⟩ := h
  rw [e1, e2, e3, e4]

/-- The empty database, used to instantiate theorems on concrete inputs. -/
def emptyDB : DB := ⟨[], [], [], []⟩

/-- A database with one document in every collection, used to instantiate
theorems on concrete inputs. -/
def sampleDB : DB :=
  ⟨[(⟨"507f1f77bcf86cd799439011"⟩, { name := "Ada", email := "ada@x.com" })],
   [(⟨"507f1f77bcf86cd799439012"⟩, { name := "Bob", email := "bob@x.com" })],
   [(⟨"507f1f77bcf86cd799439013"⟩, { title := "CS101", instructor_id := "i1" })],
   [(⟨"0000000000000000000000aa"⟩, ⟨"s1", "c1", 0⟩)]⟩

/-! ### Claim theorems -/

/-- C1: the claim says an Enrollment created without an explicit timestamp is
stamped with the current time of that create call, so two creates at
different times get different timestamps.  The code evaluates
`datetime.utcnow()` once, when `EnrollmentCreate` is defined at module
import: every request omitting `timestamp` persists that same
class-definition-time value `t0`.  The request-handling time is not even an
input of the handler, and two successive creates omitting the field persist
equal timestamps. -/
theorem c1_default_timestamp_bound_at_classdef (t0 : Nat) (db : DB)
    (id1 id2 : ObjectId) (s1 c1 s2 c2 : String) :
    (EnrollmentCreate.ofRequest t0 s1 c1 none).timestamp = t0
    ∧ (EnrollmentCreate.ofRequest t0 s1 c1 none).timestamp
        = (EnrollmentCreate.ofRequest t0 s2 c2 none).timestamp
    ∧ (enroll_student db id1 (EnrollmentCreate.ofRequest t0 s1 c1 none)).2.enrollments_col
        = db.enrollments_col ++ [(id1, ⟨s1, c1, t0⟩)]
    ∧ (enroll_student (enroll_student db id1 (EnrollmentCreate.ofRequest t0 s1 c1 none)).2 id2
          (EnrollmentCreate.ofRequest t0 s2 c2 none)).2.enrollments_col
        = db.enrollments_col ++ [(id1, ⟨s1, c1, t0⟩), (id2, ⟨s2, c2, t0⟩)] := by
  refine ⟨rfl, rfl, rfl, ?_⟩
  simp [enroll_student, insert_one, EnrollmentCreate.ofRequest]

/-- C4: a string the ObjectId codec rejects makes `getById`, `update` and
`deleteById` answer the 400 "Invalid id format" error — never a 404 — for
every entity and every storage state: all ten by-id handlers of the
source (the instructor, student and course trios plus the enrollment
delete). -/
theorem c4_invalid_id_always_400 (db : DB) (s : String)
    (idata : InstructorCreate) (sdata : StudentCreate) (cdata : CourseCreate)
    (h : isValidObjectIdString s = false) :
    (get_instructor db s).1 = .error (.http 400 "Invalid id format")
    ∧ (update_instructor db s idata).1 = .error (.http 400 "Invalid id format")
    ∧ (delete_instructor db s).1 = .error (.http 400 "Invalid id format")
    ∧ (get_student db s).1 = .error (.http 400 "Invalid id format")
    ∧ (update_student db s sdata).1 = .error (.http 400 "Invalid id format")
    ∧ (delete_student db s).1 = .error (.http 400 "Invalid id format")
    ∧ (get_course db s).1 = .error (.http 400 "Invalid id format")
    ∧ (update_course db s cdata).1 = .error (.http 400 "Invalid id format")
    ∧ (delete_course db s).1 = .error (.http 400 "Invalid id format")
    ∧ (delete_enrollment db s).1 = .error (.http 400 "Invalid id format") := by
  simp [get_instructor, update_instructor, delete_instructor, get_student,
    update_student, delete_student, get_course, update_course, delete_course,
    delete_enrollment, ObjectId.ofString, h]

/-- C4 witness: the malformed identifier "nope" on the empty database. -/
theorem c4_invalid_id_always_400_witness :
    isValidObjectIdString "nope" = false
    ∧ (get_instructor emptyDB "nope").1 = .error (.http 400 "Invalid id format")
    ∧ (update_student emptyDB "nope" { name := "Bob", email := "bob@x.com" }).1
        = .error (.http 400 "Invalid id format")
    ∧ (delete_enrollment emptyDB "nope").1 = .error (.http 400 "Invalid id format") := by
  have h := c4_invalid_id_always_400 emptyDB "nope"
    { name := "Ada", email := "ada@x.com" }
    { name := "Bob", email := "bob@x.com" }
    { title := "CS101", instructor_id := "i1" } (by decide)
  exact ⟨by decide, h.1, h.2.2.2.2.1, h.2.2.2.2.2.2.2.2.2⟩

/-- C5: a well-formed identifier with no matching document in the ENTITY'S
OWN collection makes that entity's `getById`, `update` and `deleteById`
answer the 404 not-found error — each entity independently, whatever the
other collections hold.  Covers all ten by-id handlers of the source. -/
theorem c5_absent_id_yields_404 (db : DB) (s : String) (oid : ObjectId)
    (idata : InstructorCreate) (sdata : StudentCreate) (cdata : CourseCreate)
    (hdec : ObjectId.ofString s = .ok oid) :
    (find_one db.instructors_col oid = none →
      (get_instructor db s).1 = .error (.http 404 "Instructor not found")
      ∧ (update_instructor db s idata).1 = .error (.http 404 "Instructor not found")
      ∧ (delete_instructor db s).1 = .error (.http 404 "Instructor not found"))
    ∧ (find_one db.students_col oid = none →
      (get_student db s).1 = .error (.http 404 "Student not found")
      ∧ (update_student db s sdata).1 = .error (.http 404 "Student not found")
      ∧ (delete_student db s).1 = .error (.http 404 "Student not found"))
    ∧ (find_one db.courses_col oid = none →
      (get_course db s).1 = .error (.http 404 "Course not found")
      ∧ (update_course db s cdata).1 = .error (.http 404 "Course not found")
      ∧ (delete_course db s).1 = .error (.http 404 "Course not found"))
    ∧ (find_one db.enrollments_col oid = none →
      (delete_enrollment db s).1 = .error (.http 404 "Enrollment not found")) := by
  refine ⟨?_, ?_, ?_, ?_⟩
  · intro habs
    have habs' : db.instructors_col.find? (fun d => d.1 == oid) = none := habs
    have hany := any_eq_false_of_find?_none habs'
    exact ⟨by simp [get_instructor, hdec, find_one, habs'],
           by simp [update_instructor, hdec, update_one, hany],
           by simp [delete_instructor, hdec, delete_one, hany]⟩
  · intro habs
    have habs' : db.students_col.find? (fun d => d.1 == oid) = none := habs
    have hany := any_eq_false_of_find?_none habs'
    exact ⟨by simp [get_student, hdec, find_one, habs'],
           by simp [update_student, hdec, update_one, hany],
           by simp [delete_student, hdec, delete_one, hany]⟩
  · intro habs
    have habs' : db.courses_col.find? (fun d => d.1 == oid) = none := habs
    have hany := any_eq_false_of_find?_none habs'
    exact ⟨by simp [get_course, hdec, find_one, habs'],
           by simp [update_course, hdec, update_one, hany],
           by simp [delete_course, hdec, delete_one, hany]⟩
  · intro habs
    have habs' : db.enrollments_col.find? (fun d => d.1 == oid) = none := habs
    have hany := any_eq_false_of_find?_none habs'
    simp [delete_enrollment, hdec, delete_one, hany]

/-- C5 witness: a well-formed 24-hex identifier on the empty database,
exercising the instructor get, the student update and the enrollment
delete. -/
theorem c5_absent_id_yields_404_witness :
    ObjectId.ofString "507f1f77bcf86cd799439011" = .ok ⟨"507f1f77bcf86cd799439011"⟩
    ∧ (get_instructor emptyDB "507f1f77bcf86cd799439011").1
        = .error (.http 404 "Instructor not found")
    ∧ (update_student emptyDB "507f1f77bcf86cd799439011"
        { name := "Bob", email := "bob@x.com" }).1
        = .error (.http 404 "Student not found")
    ∧ (delete_enrollment emptyDB "507f1f77bcf86cd799439011").1
        = .error (.http 404 "Enrollment not found") := by
  have h := c5_absent_id_yields_404 emptyDB "507f1f77bcf86cd799439011"
    ⟨"507f1f77bcf86cd799439011"⟩
    { name := "Ada", email := "ada@x.com" }
    { name := "Bob", email := "bob@x.com" }
    { title := "CS101", instructor_id := "i1" }
    (by rfl)
  exact ⟨by rfl, (h.1 (by rfl)).1, (h.2.1 (by rfl)).2.1, h.2.2.2 (by rfl)⟩

/-- C3: for a validated input, `create` followed by `getById` on the id the
create returned yields exactly the input fields plus the assigned id, for
each entity service exposing a getById route (instructors, students,
courses; enrollments expose no getById route).  `newId` is the fresh id
generated inside `insert_one`; freshness and well-formedness are what the
driver guarantees for generated ids. -/
theorem c3_create_then_get_roundtrip (db : DB) (newId : ObjectId) (hwf : newId.wf)
    (i : InstructorCreate) (stu : StudentCreate) (c : CourseCreate)
    (hfi : find_one db.instructors_col newId = none)
    (hfs : find_one db.students_col newId = none)
    (hfc : find_one db.courses_col newId = none) :
    ((create_instructor db newId i).1
        = .ok { id := newId.str, name := i.name, email := i.email, expertise := i.expertise }
      ∧ (get_instructor (create_instructor db newId i).2 newId.str).1
        = .ok { id := newId.str, name := i.name, email := i.email, expertise := i.expertise })
    ∧ ((create_student db newId stu).1
        = .ok { id := newId.str, name := stu.name, email := stu.email }
      ∧ (get_student (create_student db newId stu).2 newId.str).1
        = .ok { id := newId.str, name := stu.name, email := stu.email })
    ∧ ((create_course db newId c).1
        = .ok { id := newId.str, title := c.title, description := c.description,
                instructor_id := c.instructor_id }
      ∧ (get_course (create_course db newId c).2 newId.str).1
        = .ok { id := newId.str, title := c.title, description := c.description,
                instructor_id := c.instructor_id }) := by
  refine ⟨⟨rfl, ?_⟩, ⟨rfl, ?_⟩, ⟨rfl, ?_⟩⟩
  · simp [get_instructor, create_instructor, ofString_str hwf,
      find_one_insert_of_fresh _ _ _ hfi, instructorRecord]
  · simp [get_student, create_student, ofString_str hwf,
      find_one_insert_of_fresh _ _ _ hfs, studentRecord]
  · simp [get_course, create_course, ofString_str hwf,
      find_one_insert_of_fresh _ _ _ hfc, courseRecord]

/-- C3 witness: concrete create-then-get on the empty database. -/
theorem c3_create_then_get_roundtrip_witness :
    ObjectId.wf ⟨"507f1f77bcf86cd799439011"⟩
    ∧ (get_instructor
        (create_instructor emptyDB ⟨"507f1f77bcf86cd799439011"⟩
          { name := "Ada", email := "ada@x.com" }).2
        "507f1f77bcf86cd799439011").1
      = .ok { id := "507f1f77bcf86cd799439011", name := "Ada", email := "ada@x.com",
              expertise := none } := by
  have h := c3_create_then_get_roundtrip emptyDB ⟨"507f1f77bcf86cd799439011"⟩
    (by decide)
    { name := "Ada", email := "ada@x.com" }
    { name := "Bob", email := "bob@x.com" }
    { title := "CS101", instructor_id := "i1" }
    (by rfl) (by rfl) (by rfl)
  exact ⟨by decide, h.1.2⟩

/-- C8: `update` is a full replace of the mutable fields: after a
successful update the stored document's fields are exactly the input's
fields — an omitted optional field (instructor `expertise`, course
`description`) is `none` afterwards whatever it was before — and the
updated record is returned.  Stated for the two cited handlers,
`update_instructor` and `update_course`, each independently of what the
other collections hold. -/
theorem c8_update_is_full_replace (db : DB) (s t : String) (oid coid : ObjectId)
    (idata : InstructorCreate) (cdata : CourseCreate) :
    (ObjectId.ofString s = .ok oid →
      ∀ d0, find_one db.instructors_col oid = some d0 →
        (update_instructor db s idata).1
            = .ok { id := oid.str, name := idata.name, email := idata.email,
                    expertise := idata.expertise }
          ∧ find_one (update_instructor db s idata).2.instructors_col oid
            = some (oid, idata))
    ∧ (ObjectId.ofString t = .ok coid →
      ∀ c0, find_one db.courses_col coid = some c0 →
        (update_course db t cdata).1
            = .ok { id := coid.str, title := cdata.title,
                    description := cdata.description,
                    instructor_id := cdata.instructor_id }
          ∧ find_one (update_course db t cdata).2.courses_col coid
            = some (coid, cdata)) := by
  constructor
  · intro hdec d0 hfound
    have hfound' : db.instructors_col.find? (fun d => d.1 == oid) = some d0 := hfound
    have hi := any_eq_true_of_find?_some hfound'
    have hsi := find_one_setFirst db.instructors_col oid idata hi
    constructor
    · simp [update_instructor, hdec, update_one, hi, hsi, instructorRecord]
    · simp [update_instructor, hdec, update_one, hi, hsi]
  · intro hdec c0 hfound
    have hfound' : db.courses_col.find? (fun d => d.1 == coid) = some c0 := hfound
    have hc := any_eq_true_of_find?_some hfound'
    have hsc := find_one_setFirst db.courses_col coid cdata hc
    constructor
    · simp [update_course, hdec, update_one, hc, hsc, courseRecord]
    · simp [update_course, hdec, update_one, hc, hsc]

/-- C8 witness: updating a stored instructor that has an expertise with an
input omitting it leaves the field absent, and updating a course with a
description by an input omitting it likewise. -/
theorem c8_update_is_full_replace_witness :
    (update_instructor
        ⟨[(⟨"507f1f77bcf86cd799439011"⟩,
           { name := "Ada", email := "ada@x.com", expertise := some "logic" })],
          [], [(⟨"0000000000000000000000aa"⟩,
           { title := "CS101", description := some "intro", instructor_id := "i1" })], []⟩
        "507f1f77bcf86cd799439011"
        { name := "Ada L", email := "ada@x.com" }).1
      = .ok { id := "507f1f77bcf86cd799439011", name := "Ada L", email := "ada@x.com",
              expertise := none }
    ∧ (update_course
        ⟨[(⟨"507f1f77bcf86cd799439011"⟩,
           { name := "Ada", email := "ada@x.com", expertise := some "logic" })],
          [], [(⟨"0000000000000000000000aa"⟩,
           { title := "CS101", description := some "intro", instructor_id := "i1" })], []⟩
        "0000000000000000000000aa"
        { title := "CS102", instructor_id := "i1" }).1
      = .ok { id := "0000000000000000000000aa", title := "CS102", description := none,
              instructor_id := "i1" } := by
  have h := c8_update_is_full_replace
    ⟨[(⟨"507f1f77bcf86cd799439011"⟩,
       { name := "Ada", email := "ada@x.com", expertise := some "logic" })],
      [], [(⟨"0000000000000000000000aa"⟩,
       { title := "CS101", description := some "intro", instructor_id := "i1" })], []⟩
    "507f1f77bcf86cd799439011" "0000000000000000000000aa"
    ⟨"507f1f77bcf86cd799439011"⟩ ⟨"0000000000000000000000aa"⟩
    { name := "Ada L", email := "ada@x.com" }
    { title := "CS102", instructor_id := "i1" }
  exact ⟨(h.1 (by rfl)
      (⟨"507f1f77bcf86cd799439011"⟩,
       { name := "Ada", email := "ada@x.com", expertise := some "logic" })
      (by rfl)).1,
    (h.2 (by rfl)
      (⟨"0000000000000000000000aa"⟩,
       { title := "CS101", description := some "intro", instructor_id := "i1" })
      (by rfl)).1⟩

/-- C6: after a successful delete, a second delete on the same identifier
answers the structured 404 error (no crash) and leaves the storage state
exactly as the first delete left it — each entity's delete handler
independently, whatever the other collections hold.  The `Nodup`
hypothesis of each part is Mongo's `_id` uniqueness for that collection. -/
theorem c6_delete_idempotent_in_effect (db : DB) (s t u v : String) :
    ((db.instructors_col.map Prod.fst).Nodup → (delete_instructor db s).1 = .ok () →
      (delete_instructor (delete_instructor db s).2 s).1
          = .error (.http 404 "Instructor not found")
        ∧ (delete_instructor (delete_instructor db s).2 s).2
          = (delete_instructor db s).2)
    ∧ ((db.students_col.map Prod.fst).Nodup → (delete_student db t).1 = .ok () →
      (delete_student (delete_student db t).2 t).1
          = .error (.http 404 "Student not found")
        ∧ (delete_student (delete_student db t).2 t).2
          = (delete_student db t).2)
    ∧ ((db.courses_col.map Prod.fst).Nodup → (delete_course db u).1 = .ok () →
      (delete_course (delete_course db u).2 u).1
          = .error (.http 404 "Course not found")
        ∧ (delete_course (delete_course db u).2 u).2
          = (delete_course db u).2)
    ∧ ((db.enrollments_col.map Prod.fst).Nodup → (delete_enrollment db v).1 = .ok () →
      (delete_enrollment (delete_enrollment db v).2 v).1
          = .error (.http 404 "Enrollment not found")
        ∧ (delete_enrollment (delete_enrollment db v).2 v).2
          = (delete_enrollment db v).2) := by
  refine ⟨?_, ?_, ?_, ?_⟩
  · intro hnd h1
    cases hdec : ObjectId.ofString s with
    | error e => simp [delete_instructor, hdec] at h1
    | ok oid =>
      by_cases hany : db.instructors_col.any (fun d => d.1 == oid) = true
      · have h2nd := any_eraseP_eq_false db.instructors_col oid hnd
        simp [delete_instructor, hdec, delete_one, hany, h2nd]
      · simp [delete_instructor, hdec, delete_one, hany] at h1
  · intro hnd h1
    cases hdec : ObjectId.ofString t with
    | error e => simp [delete_student, hdec] at h1
    | ok oid =>
      by_cases hany : db.students_col.any (fun d => d.1 == oid) = true
      · have h2nd := any_eraseP_eq_false db.students_col oid hnd
        simp [delete_student, hdec, delete_one, hany, h2nd]
      · simp [delete_student, hdec, delete_one, hany] at h1
  · intro hnd h1
    cases hdec : ObjectId.ofString u with
    | error e => simp [delete_course, hdec] at h1
    | ok oid =>
      by_cases hany : db.courses_col.any (fun d => d.1 == oid) = true
      · have h2nd := any_eraseP_eq_false db.courses_col oid hnd
        simp [delete_course, hdec, delete_one, hany, h2nd]
      · simp [delete_course, hdec, delete_one, hany] at h1
  · intro hnd h1
    cases hdec : ObjectId.ofString v with
    | error e => simp [delete_enrollment, hdec] at h1
    | ok oid =>
      by_cases hany : db.enrollments_col.any (fun d => d.1 == oid) = true
      · have h2nd := any_eraseP_eq_false db.enrollments_col oid hnd
        simp [delete_enrollment, hdec, delete_one, hany, h2nd]
      · simp [delete_enrollment, hdec, delete_one, hany] at h1

/-- C6 witness: every collection of `sampleDB` holds one document; each
entity's delete is run twice on its own identifier. -/
theorem c6_delete_idempotent_in_effect_witness :
    (delete_instructor (delete_instructor sampleDB "507f1f77bcf86cd799439011").2
        "507f1f77bcf86cd799439011").1
      = .error (.http 404 "Instructor not found")
    ∧ (delete_student (delete_student sampleDB "507f1f77bcf86cd799439012").2
        "507f1f77bcf86cd799439012").1
      = .error (.http 404 "Student not found")
    ∧ (delete_course (delete_course sampleDB "507f1f77bcf86cd799439013").2
        "507f1f77bcf86cd799439013").1
      = .error (.http 404 "Course not found")
    ∧ (delete_enrollment (delete_enrollment sampleDB "0000000000000000000000aa").2
        "0000000000000000000000aa").1
      = .error (.http 404 "Enrollment not found") := by
  have h := c6_delete_idempotent_in_effect sampleDB
    "507f1f77bcf86cd799439011" "507f1f77bcf86cd799439012"
    "507f1f77bcf86cd799439013" "0000000000000000000000aa"
  exact ⟨(h.1 (by decide) (by rfl)).1, (h.2.1 (by decide) (by rfl)).1,
    (h.2.2.1 (by decide) (by rfl)).1, (h.2.2.2 (by decide) (by rfl)).1⟩

/-- Deleting an instructor never touches the courses collection. -/
theorem delete_instructor_courses_eq (db : DB) (s : String) :
    (delete_instructor db s).2.courses_col = db.courses_col := by
  unfold delete_instructor
  cases ObjectId.ofString s with
  | error e => rfl
  | ok oid =>
    dsimp only
    split <;> rfl

/-- Deleting an instructor never touches the enrollments collection. -/
theorem delete_instructor_enrollments_eq (db : DB) (s : String) :
    (delete_instructor db s).2.enrollments_col = db.enrollments_col := by
  unfold delete_instructor
  cases ObjectId.ofString s with
  | error e => rfl
  | ok oid =>
    dsimp only
    split <;> rfl

/-- Deleting a course never touches the enrollments collection. -/
theorem delete_course_enrollments_eq (db : DB) (s : String) :
    (delete_course db s).2.enrollments_col = db.enrollments_col := by
  unfold delete_course
  cases ObjectId.ofString s with
  | error e => rfl
  | ok oid =>
    dsimp only
    split <;> rfl

/-- Deleting a course leaves every other course document untouched: the
resulting collection is a subsequence of the old one. -/
theorem delete_course_courses_sublist (db : DB) (s : String) :
    List.Sublist (delete_course db s).2.courses_col db.courses_col := by
  unfold delete_course
  cases ObjectId.ofString s with
  | error e => exact List.Sublist.refl _
  | ok oid =>
    dsimp only
    have hsub : List.Sublist (delete_one db.courses_col oid).2 db.courses_col := by
      unfold delete_one
      split
      · exact List.eraseP_sublist _
      · exact List.Sublist.refl _
    split <;> exact hsub

/-- C9: no cascading delete.  Deleting an instructor leaves the courses and
enrollments collections byte-for-byte unchanged — in particular
`coursesByInstructor` answers the same sequence before and after, whether
or not the delete succeeded — and deleting a course leaves enrollments
unchanged and every remaining course document unmodified. -/
theorem c9_no_cascading_delete (db : DB) (s t iid : String) :
    (delete_instructor db s).2.courses_col = db.courses_col
    ∧ (delete_instructor db s).2.enrollments_col = db.enrollments_col
    ∧ get_courses_by_instructor (delete_instructor db s).2 iid
        = get_courses_by_instructor db iid
    ∧ (delete_course db t).2.enrollments_col = db.enrollments_col
    ∧ List.Sublist (delete_course db t).2.courses_col db.courses_col := by
  refine ⟨delete_instructor_courses_eq db s, delete_instructor_enrollments_eq db s,
    ?_, delete_course_enrollments_eq db t, delete_course_courses_sublist db t⟩
  unfold get_courses_by_instructor
  rw [delete_instructor_courses_eq db s]

/-- C10: every lookup-by-id operation is atomic on error: whenever
`getById`, `update` or `deleteById` of any entity fails (with the 400 or
the 404 error), the whole database state after the call equals the state
before it.  `getById` never writes at all.  Covers all ten by-id handlers
of the source. -/
theorem c10_error_leaves_state_unchanged (db : DB) (s : String)
    (idata : InstructorCreate) (sdata : StudentCreate) (cdata : CourseCreate) :
    (get_instructor db s).2 = db
    ∧ (get_student db s).2 = db
    ∧ (get_course db s).2 = db
    ∧ (∀ e, (update_instructor db s idata).1 = .error e
        → (update_instructor db s idata).2 = db)
    ∧ (∀ e, (update_student db s sdata).1 = .error e
        → (update_student db s sdata).2 = db)
    ∧ (∀ e, (update_course db s cdata).1 = .error e
        → (update_course db s cdata).2 = db)
    ∧ (∀ e, (delete_instructor db s).1 = .error e
        → (delete_instructor db s).2 = db)
    ∧ (∀ e, (delete_student db s).1 = .error e
        → (delete_student db s).2 = db)
    ∧ (∀ e, (delete_course db s).1 = .error e
        → (delete_course db s).2 = db)
    ∧ (∀ e, (delete_enrollment db s).1 = .error e
        → (delete_enrollment db s).2 = db) := by
  refine ⟨?_, ?_, ?_, ?_, ?_, ?_, ?_, ?_, ?_, ?_⟩
  · unfold get_instructor
    cases ObjectId.ofString s with
    | error e => rfl
    | ok oid =>
      dsimp only
      cases find_one db.instructors_col oid <;> rfl
  · unfold get_student
    cases ObjectId.ofString s with
    | error e => rfl
    | ok oid =>
      dsimp only
      cases find_one db.students_col oid <;> rfl
  · unfold get_course
    cases ObjectId.ofString s with
    | error e => rfl
    | ok oid =>
      dsimp only
      cases find_one db.courses_col oid <;> rfl
  · intro e he
    cases hdec : ObjectId.ofString s with
    | error e2 => simp [update_instructor, hdec]
    | ok oid =>
      by_cases hany : db.instructors_col.any (fun d => d.1 == oid) = true
      · have hset := find_one_setFirst db.instructors_col oid idata hany
        simp [update_instructor, hdec, update_one, hany, hset] at he
      · simp [update_instructor, hdec, update_one, hany]
  · intro e he
    cases hdec : ObjectId.ofString s with
    | error e2 => simp [update_student, hdec]
    | ok oid =>
      by_cases hany : db.students_col.any (fun d => d.1 == oid) = true
      · have hset := find_one_setFirst db.students_col oid sdata hany
        simp [update_student, hdec, update_one, hany, hset] at he
      · simp [update_student, hdec, update_one, hany]
  · intro e he
    cases hdec : ObjectId.ofString s with
    | error e2 => simp [update_course, hdec]
    | ok oid =>
      by_cases hany : db.courses_col.any (fun d => d.1 == oid) = true
      · have hset := find_one_setFirst db.courses_col oid cdata hany
        simp [update_course, hdec, update_one, hany, hset] at he
      · simp [update_course, hdec, update_one, hany]
  · intro e he
    cases hdec : ObjectId.ofString s with
    | error e2 => simp [delete_instructor, hdec]
    | ok oid =>
      by_cases hany : db.instructors_col.any (fun d => d.1 == oid) = true
      · simp [delete_instructor, hdec, delete_one, hany] at he
      · simp [delete_instructor, hdec, delete_one, hany]
  · intro e he
    cases hdec : ObjectId.ofString s with
    | error e2 => simp [delete_student, hdec]
    | ok oid =>
      by_cases hany : db.students_col.any (fun d => d.1 == oid) = true
      · simp [delete_student, hdec, delete_one, hany] at he
      · simp [delete_student, hdec, delete_one, hany]
  · intro e he
    cases hdec : ObjectId.ofString s with
    | error e2 => simp [delete_course, hdec]
    | ok oid =>
      by_cases hany : db.courses_col.any (fun d => d.1 == oid) = true
      · simp [delete_course, hdec, delete_one, hany] at he
      · simp [delete_course, hdec, delete_one, hany]
  · intro e he
    cases hdec : ObjectId.ofString s with
    | error e2 => simp [delete_enrollment, hdec]
    | ok oid =>
      by_cases hany : db.enrollments_col.any (fun d => d.1 == oid) = true
      · simp [delete_enrollment, hdec, delete_one, hany] at he
      · simp [delete_enrollment, hdec, delete_one, hany]

/-- C10 witness: failed updates and deletes on the empty database leave it
unchanged. -/
theorem c10_error_leaves_state_unchanged_witness :
    (update_instructor emptyDB "zz" { name := "Ada", email := "ada@x.com" }).2 = emptyDB
    ∧ (update_student emptyDB "zz" { name := "Bob", email := "bob@x.com" }).2 = emptyDB
    ∧ (update_course emptyDB "zz" { title := "CS101", instructor_id := "i1" }).2 = emptyDB
    ∧ (delete_instructor emptyDB "zz").2 = emptyDB
    ∧ (delete_student emptyDB "zz").2 = emptyDB
    ∧ (delete_course emptyDB "zz").2 = emptyDB
    ∧ (delete_enrollment emptyDB "zz").2 = emptyDB := by
  have h := c10_error_leaves_state_unchanged emptyDB "zz"
    { name := "Ada", email := "ada@x.com" }
    { name := "Bob", email := "bob@x.com" }
    { title := "CS101", instructor_id := "i1" }
  exact ⟨h.2.2.2.1 (.http 400 "Invalid id format") (by rfl),
    h.2.2.2.2.1 (.http 400 "Invalid id format") (by rfl),
    h.2.2.2.2.2.1 (.http 400 "Invalid id format") (by rfl),
    h.2.2.2.2.2.2.1 (.http 400 "Invalid id format") (by rfl),
    h.2.2.2.2.2.2.2.1 (.http 400 "Invalid id format") (by rfl),
    h.2.2.2.2.2.2.2.2.1 (.http 400 "Invalid id format") (by rfl),
    h.2.2.2.2.2.2.2.2.2 (.http 400 "Invalid id format") (by rfl)⟩

/-- C7: when every course reference of the student's enrollments is a
well-formed identifier, `coursesOfStudent` succeeds and its result lists
each Course record at most once, however many enrollments reference the
same course — the `$in` lookup scans the course collection, whose `_id`s
are unique (the `Nodup` hypothesis). -/
theorem c7_courses_of_student_no_duplicates (db : DB) (sid : String)
    (hnd : (db.courses_col.map Prod.fst).Nodup)
    (hval : ∀ e ∈ db.enrollments_col, e.2.student_id = sid
      → isValidObjectIdString e.2.course_id = true) :
    ∃ cs, get_courses_of_student db sid = .ok cs ∧ cs.Nodup := by
  have hvalid : ∀ s ∈ (db.enrollments_col.filter
      (fun e => e.2.student_id == sid)).map (fun e => e.2.course_id),
      isValidObjectIdString s = true := by
    intro s hs
    simp only [List.mem_map, List.mem_filter] at hs
    obtain ⟨e, ⟨he, hesid⟩, rfl⟩ := hs
    exact hval e he (by simpa using hesid)
  have hmap := mapObjectIds_ok_of_valid hvalid
  simp only [get_courses_of_student, hmap]
  exact ⟨_, rfl,
    List.Nodup.map courseRecord_injective
      (List.Nodup.filter _ (List.Nodup.of_map Prod.fst hnd))⟩

/-- C7 witness: two enrollments of the same student referencing the same
course; the course still comes back once. -/
theorem c7_courses_of_student_no_duplicates_witness :
    ∃ cs, get_courses_of_student
      ⟨[], [],
        [(⟨"0000000000000000000000aa"⟩,
          { title := "CS101", instructor_id := "i1" })],
        [(⟨"0000000000000000000000ab"⟩, ⟨"s1", "0000000000000000000000aa", 0⟩),
         (⟨"0000000000000000000000ac"⟩, ⟨"s1", "0000000000000000000000aa", 0⟩)]⟩
      "s1" = .ok cs ∧ cs.Nodup :=
  c7_courses_of_student_no_duplicates
    ⟨[], [],
      [(⟨"0000000000000000000000aa"⟩,
        { title := "CS101", instructor_id := "i1" })],
      [(⟨"0000000000000000000000ab"⟩, ⟨"s1", "0000000000000000000000aa", 0⟩),
       (⟨"0000000000000000000000ac"⟩, ⟨"s1", "0000000000000000000000aa", 0⟩)]⟩
    "s1" (by decide) (by decide)

/-- C2 counterexample: one enrollment of student "s1" whose course
reference "notanid" is malformed.  The claim says the request fails with
the identifier error mapped to a 400 client error; the code has no
try/except around `ObjectId(cid)`, so the bson `InvalidId` exception
escapes the handler uncaught (FastAPI answers 500), which is not an
`HTTPException` with status 400. -/
theorem c2_counterexample_uncaught_not_400 :
    get_courses_of_student
        ⟨[], [], [], [(⟨"0000000000000000000000aa"⟩, ⟨"s1", "notanid", 0⟩)]⟩ "s1"
      = .error (.exn .invalidId)
    ∧ isClientError400 (get_courses_of_student
        ⟨[], [], [], [(⟨"0000000000000000000000aa"⟩, ⟨"s1", "notanid", 0⟩)]⟩ "s1")
      = false := by
  exact ⟨rfl, rfl⟩

/-- C2 (amended): if any enrollment matching the student carries a
malformed course reference, `coursesOfStudent` fails for the whole request
with the propagated identifier-codec `InvalidId` error, which escapes the
handler uncaught (a 500 server error) rather than being mapped to a 400
client error, and the bad reference is not skipped; symmetrically, and
independently, for `studentsOfCourse` over student references. -/
theorem c2_bad_reference_fails_whole_request (db : DB) (sid cid : String) :
    ((∃ e ∈ db.enrollments_col, e.2.student_id = sid
        ∧ isValidObjectIdString e.2.course_id = false)
      → get_courses_of_student db sid = .error (.exn .invalidId)
        ∧ isClientError400 (get_courses_of_student db sid) = false)
    ∧ ((∃ e ∈ db.enrollments_col, e.2.course_id = cid
        ∧ isValidObjectIdString e.2.student_id = false)
      → get_students_of_course db cid = .error (.exn .invalidId)
        ∧ isClientError400 (get_students_of_course db cid) = false) := by
  constructor
  · intro hs
    obtain ⟨e1, he1, hsid1, hbad1⟩ := hs
    have hmap1 : mapObjectIds ((db.enrollments_col.filter
        (fun e => e.2.student_id == sid)).map (fun e => e.2.course_id))
        = .error .invalidId := by
      refine mapObjectIds_error_of_invalid ⟨e1.2.course_id, ?_, hbad1⟩
      simp only [List.mem_map, List.mem_filter]
      exact ⟨e1, ⟨he1, by simp [hsid1]⟩, rfl⟩
    have h1 : get_courses_of_student db sid = .error (.exn .invalidId) := by
      simp [get_courses_of_student, hmap1]
    exact ⟨h1, by rw [h1]; rfl⟩
  · intro hc
    obtain ⟨e2, he2, hcid2, hbad2⟩ := hc
    have hmap2 : mapObjectIds ((db.enrollments_col.filter
        (fun e => e.2.course_id == cid)).map (fun e => e.2.student_id))
        = .error .invalidId := by
      refine mapObjectIds_error_of_invalid ⟨e2.2.student_id, ?_, hbad2⟩
      simp only [List.mem_map, List.mem_filter]
      exact ⟨e2, ⟨he2, by simp [hcid2]⟩, rfl⟩
    have h2 : get_students_of_course db cid = .error (.exn .invalidId) := by
      simp [get_students_of_course, hmap2]
    exact ⟨h2, by rw [h2]; rfl⟩

/-- C2 witness for the amended statement: one enrollment with a malformed
course reference and one with a malformed student reference. -/
theorem c2_bad_reference_fails_whole_request_witness :
    get_courses_of_student
        ⟨[], [], [],
          [(⟨"0000000000000000000000aa"⟩, ⟨"s1", "badcourse", 0⟩),
           (⟨"0000000000000000000000ab"⟩, ⟨"badstudent", "c1", 0⟩)]⟩ "s1"
      = .error (.exn .invalidId)
    ∧ get_students_of_course
        ⟨[], [], [],
          [(⟨"0000000000000000000000aa"⟩, ⟨"s1", "badcourse", 0⟩),
           (⟨"0000000000000000000000ab"⟩, ⟨"badstudent", "c1", 0⟩)]⟩ "c1"
      = .error (.exn .invalidId) := by
  have h := c2_bad_reference_fails_whole_request
    ⟨[], [], [],
      [(⟨"0000000000000000000000aa"⟩, ⟨"s1", "badcourse", 0⟩),
       (⟨"0000000000000000000000ab"⟩, ⟨"badstudent", "c1", 0⟩)]⟩
    "s1" "c1"
  exact ⟨(h.1 (by decide)).1, (h.2 (by decide)).1⟩

end CourseApi
